import Mathlib

/-!
# Verification of the paddlegeddon scoring and phase logic

Shallow embedding of the gameplay core of `src/src/game/`:
the score tracker, the goal-event handler, the goal-pause timer,
the game-over input handler, the goal sensor observer and the serve
velocity computation, with theorems checking the specification's claims.
-/

namespace Paddlegeddon

/-- `PlayerSide` from `src/src/game/player.rs` (default `Left`). -/
inductive PlayerSide where
  | Left
  | Right
deriving DecidableEq, Repr

/-- `GamePhase` from `src/src/game/mod.rs`; a sub-state of `Screen::Gameplay`
with default `WaitingToServe`. -/
inductive GamePhase where
  | WaitingToServe
  | Playing
  | GoalScored
  | GameOver
deriving DecidableEq, Repr

/-- The two `Screen` variants referenced by `src/src/game/scoring.rs`
(`Screen::Gameplay`, `Screen::Title`); the enum itself lives in
`crate::screens`, outside the provided sources. -/
inductive ScreenState where
  | Gameplay
  | Title
deriving DecidableEq, Repr

/-- `MAX_SCORE` from `src/src/game/scoring.rs` line 13. -/
def MAX_SCORE : Nat := 11

/-- `MERCY_SCORE` from `src/src/game/scoring.rs` line 14. -/
def MERCY_SCORE : Nat := 7

/-- `GOAL_PAUSE_DURATION` from `src/src/game/scoring.rs` line 20
(`1.0` second), modelled over the rationals. -/
def GOAL_PAUSE_DURATION : ℚ := 1

/-- `Score` resource from `src/src/game/scoring.rs` (two `u32` counters;
the game logic keeps them far below `2^32`, so `Nat` is used). -/
structure Score where
  left : Nat
  right : Nat
deriving DecidableEq, Repr

/-- `Score::has_winner` from `src/src/game/scoring.rs` lines 58-67:
normal win at `MAX_SCORE`, else mercy win at `MERCY_SCORE`-to-0. -/
def Score.has_winner (s : Score) : Bool :=
  if MAX_SCORE ≤ s.left ∨ MAX_SCORE ≤ s.right then
    true
  else
    (decide (MERCY_SCORE ≤ s.left) && decide (s.right = 0))
      || (decide (MERCY_SCORE ≤ s.right) && decide (s.left = 0))

/-- `Score::winner` from `src/src/game/scoring.rs` lines 70-79. -/
def Score.winner (s : Score) : Option PlayerSide :=
  if MAX_SCORE ≤ s.left ∨ (MERCY_SCORE ≤ s.left ∧ s.right = 0) then
    some PlayerSide.Left
  else if MAX_SCORE ≤ s.right ∨ (MERCY_SCORE ≤ s.right ∧ s.left = 0) then
    some PlayerSide.Right
  else
    none

/-- The win-type label computed in `handle_goal_and_check_win`
(`src/src/game/scoring.rs` lines 191-197) and again, with the same
condition, in `setup_game_over_screen` (lines 244-250): the mercy
condition is tested first. -/
def win_type (s : Score) : String :=
  if (MERCY_SCORE ≤ s.left ∧ s.right = 0) ∨ (MERCY_SCORE ≤ s.right ∧ s.left = 0) then
    "Mercy win"
  else
    "Game win"

/-- A ball entity as far as the scoring pipeline observes it: its linear
velocity (`src/src/game/ball.rs`; `spawn_ball` starts it at
`LinearVelocity::ZERO`). -/
structure BallEnt where
  vel : ℚ × ℚ
deriving DecidableEq, Repr

/-- `spawn_ball` from `src/src/game/ball.rs` lines 66-110: a fresh ball at
the court center, at rest, not yet served. -/
def spawn_ball : BallEnt := ⟨(0, 0)⟩

/-- The `GoalTimer` resource's `Timer` (`src/src/game/scoring.rs` lines
91-95): a once-mode Bevy timer, modelled by its elapsed time and duration
in rational seconds. -/
structure GTimer where
  elapsed : ℚ
  duration : ℚ
deriving DecidableEq, Repr

/-- `Timer::from_seconds(d, TimerMode::Once)`. -/
def GTimer.from_seconds (d : ℚ) : GTimer := ⟨0, d⟩

/-- `Timer::tick` for a once-mode timer: elapsed time advances by the
delta, saturating at the duration. -/
def GTimer.tick (t : GTimer) (delta : ℚ) : GTimer :=
  { t with elapsed := min (t.elapsed + delta) t.duration }

/-- `Timer::finished` for a once-mode timer. -/
def GTimer.finished (t : GTimer) : Bool :=
  decide (t.duration ≤ t.elapsed)

/-- `GoalScored` event from `src/src/game/scoring.rs` lines 43-46. -/
structure GoalScoredEv where
  side : PlayerSide
deriving DecidableEq, Repr

/-- The shared mutable state the scoring systems read and write: the
`Score` and `GoalTimer` resources, the live `Ball` entities, the
`ServeDirection` resource (`src/src/game/ball.rs` lines 58-62), the
`GamePhase` sub-state and the `Screen` state. -/
structure GameState where
  score : Score
  balls : List BallEnt
  serve_side : PlayerSide
  phase : GamePhase
  goal_timer : GTimer
  screen : ScreenState
deriving DecidableEq, Repr

/-- `handle_goal_and_check_win` from `src/src/game/scoring.rs` lines
153-225.  It is registered with `app.add_observer` (line 39) with no
`run_if` condition, so it runs on every `GoalScored` trigger regardless of
the current `GamePhase`: increment the scoring side's counter, despawn all
balls, then either go to `GameOver` (winner) or set the next server,
spawn a fresh ball, start the goal timer and go to `GoalScored`. -/
def handle_goal_and_check_win (ev : GoalScoredEv) (st : GameState) : GameState :=
  let score : Score :=
    match ev.side with
    | PlayerSide.Left => ⟨st.score.left + 1, st.score.right⟩
    | PlayerSide.Right => ⟨st.score.left, st.score.right + 1⟩
  if score.has_winner then
    { st with score := score, balls := [], phase := GamePhase.GameOver }
  else
    { st with
      score := score
      balls := [spawn_ball]
      serve_side :=
        match ev.side with
        | PlayerSide.Left => PlayerSide.Right
        | PlayerSide.Right => PlayerSide.Left
      phase := GamePhase.GoalScored
      goal_timer := GTimer.from_seconds GOAL_PAUSE_DURATION }

/-- `handle_goal_pause` from `src/src/game/scoring.rs` lines 228-239,
scheduled with `run_if(in_state(GamePhase::GoalScored))` (line 34): tick
the goal timer, and when it finishes set the phase to `WaitingToServe`. -/
def handle_goal_pause (delta : ℚ) (st : GameState) : GameState :=
  if st.phase = GamePhase.GoalScored then
    let t := st.goal_timer.tick delta
    if t.finished then
      { st with goal_timer := t, phase := GamePhase.WaitingToServe }
    else
      { st with goal_timer := t }
  else
    st

/-- Modelled from the spec: the `Screen` state machine of `crate::screens`
is not among the provided sources.  `GamePhase` is declared in
`src/src/game/mod.rs` as a sub-state with source `Screen::Gameplay` and
default `WaitingToServe`, so (re-)entering the `Gameplay` screen
re-initializes the phase to `WaitingToServe` ("explicit restart command →
reset Score Tracker, → WaitingToServe"). -/
def enter_gameplay (st : GameState) : GameState :=
  { st with screen := ScreenState.Gameplay, phase := GamePhase.WaitingToServe }

/-- `handle_game_over_input` from `src/src/game/scoring.rs` lines 318-334,
scheduled with `run_if(in_state(GamePhase::GameOver))` (line 35).  On
Space: reset the score and re-enter the `Gameplay` screen; on Escape:
reset the score and go to the `Title` screen. -/
def handle_game_over_input (space escape : Bool) (st : GameState) : GameState :=
  if st.phase = GamePhase.GameOver then
    if space then
      enter_gameplay { st with score := ⟨0, 0⟩ }
    else if escape then
      { st with score := ⟨0, 0⟩, screen := ScreenState.Title }
    else
      st
  else
    st

/-- `Goal` component from `src/src/game/court.rs` lines 48-53. -/
inductive Goal where
  | Left
  | Right
deriving DecidableEq, Repr

/-- The goal sensor's `OnCollisionStart` observer, attached in
`spawn_goal` (`src/src/game/court.rs` lines 203-222): if the other
collider is a ball, emit one `GoalScored` event whose side is opposite
the goal that was hit; otherwise emit nothing. -/
def goal_observer (goal_side : Goal) (other_is_ball : Bool) : Option GoalScoredEv :=
  if other_is_ball then
    some ⟨match goal_side with
          | Goal.Left => PlayerSide.Right
          | Goal.Right => PlayerSide.Left⟩
  else
    none

/-- C3: `has_winner` is true exactly on the claimed pairs, `winner` is
`some` exactly when `has_winner` is true, and the returned side satisfies
one of its own win conditions. -/
theorem score_has_winner_winner_spec (l r : Nat) :
    ((Score.mk l r).has_winner = true ↔
      (11 ≤ l ∨ 11 ≤ r ∨ (7 ≤ l ∧ r = 0) ∨ (7 ≤ r ∧ l = 0)))
    ∧ ((Score.mk l r).winner.isSome = (Score.mk l r).has_winner)
    ∧ ((Score.mk l r).winner = some PlayerSide.Left →
        11 ≤ l ∨ (7 ≤ l ∧ r = 0))
    ∧ ((Score.mk l r).winner = some PlayerSide.Right →
        11 ≤ r ∨ (7 ≤ r ∧ l = 0)) := by
  unfold Score.has_winner Score.winner MAX_SCORE MERCY_SCORE
  refine ⟨?_, ?_, ?_, ?_⟩ <;>
    split_ifs <;> simp_all <;> omega

/-- C3 witness: the spec holds at the concrete pair (9, 0). -/
theorem score_has_winner_winner_spec_witness :
    ((Score.mk 9 0).has_winner = true ↔
      (11 ≤ 9 ∨ 11 ≤ 0 ∨ (7 ≤ 9 ∧ 0 = 0) ∨ (7 ≤ 0 ∧ 9 = 0)))
    ∧ ((Score.mk 9 0).winner.isSome = (Score.mk 9 0).has_winner)
    ∧ ((Score.mk 9 0).winner = some PlayerSide.Left →
        11 ≤ 9 ∨ (7 ≤ 9 ∧ 0 = 0))
    ∧ ((Score.mk 9 0).winner = some PlayerSide.Right →
        11 ≤ 0 ∨ (7 ≤ 0 ∧ 9 = 0)) :=
  score_has_winner_winner_spec 9 0

/-- C4 counterexample: at the winning score (11, 0) the left side has
reached 11, yet the label computed by the code is "Mercy win", not
"Game win": the mercy condition is tested first. -/
theorem win_type_not_normal_priority :
    (Score.mk 11 0).has_winner = true
    ∧ 11 ≤ (Score.mk 11 0).left
    ∧ win_type (Score.mk 11 0) = "Mercy win"
    ∧ win_type (Score.mk 11 0) ≠ "Game win" := by
  refine ⟨by decide, by decide, ?_, ?_⟩ <;>
    simp [win_type, MERCY_SCORE]

/-- C4 amended: the mercy condition takes priority for the label: the
label is "Mercy win" exactly when a side has at least `MERCY_SCORE`
points with the opponent at 0 (even when that side has also reached 11),
and "Game win" otherwise; in particular 9-0 is reported as a mercy win
and 11-5 as a game win. -/
theorem win_type_mercy_priority (l r : Nat) :
    (win_type (Score.mk l r) = "Mercy win" ↔
      ((7 ≤ l ∧ r = 0) ∨ (7 ≤ r ∧ l = 0)))
    ∧ (win_type (Score.mk l r) = "Game win" ↔
      ¬((7 ≤ l ∧ r = 0) ∨ (7 ≤ r ∧ l = 0)))
    ∧ win_type (Score.mk 9 0) = "Mercy win"
    ∧ win_type (Score.mk 11 5) = "Game win" := by
  refine ⟨?_, ?_, by simp [win_type, MERCY_SCORE], by simp [win_type, MERCY_SCORE]⟩ <;>
    · unfold win_type MERCY_SCORE
      split_ifs with h <;> simp_all

/-- C4 witness for the amended statement, at the pair (11, 0). -/
theorem win_type_mercy_priority_witness :
    (win_type (Score.mk 11 0) = "Mercy win" ↔
      ((7 ≤ 11 ∧ 0 = 0) ∨ (7 ≤ 0 ∧ 11 = 0)))
    ∧ (win_type (Score.mk 11 0) = "Game win" ↔
      ¬((7 ≤ 11 ∧ 0 = 0) ∨ (7 ≤ 0 ∧ 11 = 0)))
    ∧ win_type (Score.mk 9 0) = "Mercy win"
    ∧ win_type (Score.mk 11 5) = "Game win" :=
  win_type_mercy_priority 11 0

/-- The score after recording a point for `side`, as written inline in
`handle_goal_and_check_win` (`src/src/game/scoring.rs` lines 166-181). -/
def record_point (s : Score) (side : PlayerSide) : Score :=
  match side with
  | PlayerSide.Left => ⟨s.left + 1, s.right⟩
  | PlayerSide.Right => ⟨s.left, s.right + 1⟩

/-- The side opposite a given side; `handle_goal_and_check_win` assigns
the opposite of the scoring side as the next server
(`src/src/game/scoring.rs` lines 209-212). -/
def opposite_side (side : PlayerSide) : PlayerSide :=
  match side with
  | PlayerSide.Left => PlayerSide.Right
  | PlayerSide.Right => PlayerSide.Left

/-- C1: processing a goal event while Playing increments the scoring
side's count by 1 (the other unchanged); if the updated score has no
winner, all previous balls are gone, one fresh ball at rest stands in
their place, the next server is the side opposite the scorer, a goal
pause timer is started and the phase becomes GoalScored; if the updated
score has a winner, all balls are gone and the phase becomes GameOver in
the same step. -/
theorem goal_event_in_playing (st : GameState) (ev : GoalScoredEv)
    (h : st.phase = GamePhase.Playing) :
    (handle_goal_and_check_win ev st).score = record_point st.score ev.side
    ∧ ((record_point st.score ev.side).has_winner = false →
        (handle_goal_and_check_win ev st).balls = [spawn_ball]
        ∧ spawn_ball.vel = (0, 0)
        ∧ (handle_goal_and_check_win ev st).serve_side = opposite_side ev.side
        ∧ (handle_goal_and_check_win ev st).goal_timer =
            GTimer.from_seconds GOAL_PAUSE_DURATION
        ∧ (handle_goal_and_check_win ev st).phase = GamePhase.GoalScored)
    ∧ ((record_point st.score ev.side).has_winner = true →
        (handle_goal_and_check_win ev st).balls = []
        ∧ (handle_goal_and_check_win ev st).phase = GamePhase.GameOver) := by
  unfold handle_goal_and_check_win record_point opposite_side
  cases ev with
  | mk side =>
    cases side <;>
      · dsimp only
        split <;> simp_all [spawn_ball]

/-- C1 witness: a goal for Right from 0-0 while Playing. -/
theorem goal_event_in_playing_witness :
    (handle_goal_and_check_win ⟨PlayerSide.Right⟩
        ⟨⟨0, 0⟩, [⟨(2, 3)⟩], PlayerSide.Left, GamePhase.Playing, ⟨0, 1⟩,
          ScreenState.Gameplay⟩).score =
      record_point ⟨0, 0⟩ PlayerSide.Right
    ∧ ((record_point ⟨0, 0⟩ PlayerSide.Right).has_winner = false →
        (handle_goal_and_check_win ⟨PlayerSide.Right⟩
            ⟨⟨0, 0⟩, [⟨(2, 3)⟩], PlayerSide.Left, GamePhase.Playing, ⟨0, 1⟩,
              ScreenState.Gameplay⟩).balls = [spawn_ball]
        ∧ spawn_ball.vel = (0, 0)
        ∧ (handle_goal_and_check_win ⟨PlayerSide.Right⟩
            ⟨⟨0, 0⟩, [⟨(2, 3)⟩], PlayerSide.Left, GamePhase.Playing, ⟨0, 1⟩,
              ScreenState.Gameplay⟩).serve_side = opposite_side PlayerSide.Right
        ∧ (handle_goal_and_check_win ⟨PlayerSide.Right⟩
            ⟨⟨0, 0⟩, [⟨(2, 3)⟩], PlayerSide.Left, GamePhase.Playing, ⟨0, 1⟩,
              ScreenState.Gameplay⟩).goal_timer =
            GTimer.from_seconds GOAL_PAUSE_DURATION
        ∧ (handle_goal_and_check_win ⟨PlayerSide.Right⟩
            ⟨⟨0, 0⟩, [⟨(2, 3)⟩], PlayerSide.Left, GamePhase.Playing, ⟨0, 1⟩,
              ScreenState.Gameplay⟩).phase = GamePhase.GoalScored)
    ∧ ((record_point ⟨0, 0⟩ PlayerSide.Right).has_winner = true →
        (handle_goal_and_check_win ⟨PlayerSide.Right⟩
            ⟨⟨0, 0⟩, [⟨(2, 3)⟩], PlayerSide.Left, GamePhase.Playing, ⟨0, 1⟩,
              ScreenState.Gameplay⟩).balls = []
        ∧ (handle_goal_and_check_win ⟨PlayerSide.Right⟩
            ⟨⟨0, 0⟩, [⟨(2, 3)⟩], PlayerSide.Left, GamePhase.Playing, ⟨0, 1⟩,
              ScreenState.Gameplay⟩).phase = GamePhase.GameOver) :=
  goal_event_in_playing _ _ rfl

/-- C2 counterexample: a goal event delivered while the phase is
WaitingToServe is not ignored: the score changes.  The observer is
registered by `app.add_observer` with no phase condition and
`handle_goal_and_check_win` never reads the phase. -/
theorem goal_event_outside_playing_not_ignored_cex :
    GameState.phase ⟨⟨0, 0⟩, [spawn_ball], PlayerSide.Left,
        GamePhase.WaitingToServe, ⟨0, 1⟩, ScreenState.Gameplay⟩ ≠
      GamePhase.Playing
    ∧ (handle_goal_and_check_win ⟨PlayerSide.Right⟩
        ⟨⟨0, 0⟩, [spawn_ball], PlayerSide.Left, GamePhase.WaitingToServe,
          ⟨0, 1⟩, ScreenState.Gameplay⟩).score ≠ Score.mk 0 0 := by
  refine ⟨by decide, ?_⟩
  simp [handle_goal_and_check_win, spawn_ball, Score.has_winner, MAX_SCORE,
    MERCY_SCORE]

/-- C2 amended: a goal event delivered while the phase is not Playing is
processed all the same — the scoring side's count is still incremented by
1, exactly as in Playing. -/
theorem goal_event_outside_playing_scores (st : GameState) (ev : GoalScoredEv)
    (h : st.phase ≠ GamePhase.Playing) :
    (handle_goal_and_check_win ev st).score = record_point st.score ev.side := by
  unfold handle_goal_and_check_win record_point
  cases ev with
  | mk side => cases side <;> · dsimp only; split <;> simp

/-- C2 witness for the amended statement: a goal for Left while in the
GoalScored pause still bumps the score. -/
theorem goal_event_outside_playing_scores_witness :
    (handle_goal_and_check_win ⟨PlayerSide.Left⟩
        ⟨⟨3, 4⟩, [spawn_ball], PlayerSide.Right, GamePhase.GoalScored,
          ⟨0, 1⟩, ScreenState.Gameplay⟩).score =
      record_point ⟨3, 4⟩ PlayerSide.Left :=
  goal_event_outside_playing_scores _ _ (by decide)

/-- The side scored against by a goal sensor: the side opposite the goal
that was hit (`src/src/game/court.rs` lines 211-214). -/
def goal_scoring_side (g : Goal) : PlayerSide :=
  match g with
  | Goal.Left => PlayerSide.Right
  | Goal.Right => PlayerSide.Left

/-- C6: a collision-start on a goal sensor emits a goal event exactly
when the other collider is a ball, and then exactly one event, whose
scoring side is the side opposite the goal that was hit. -/
theorem goal_observer_spec (g : Goal) (other_is_ball : Bool) (ev : GoalScoredEv) :
    (goal_observer g other_is_ball = some ev ↔
      (other_is_ball = true ∧ ev = ⟨goal_scoring_side g⟩))
    ∧ goal_observer g true = some ⟨goal_scoring_side g⟩
    ∧ goal_observer g false = none := by
  cases g <;> cases other_is_ball <;>
    simp [goal_observer, goal_scoring_side, eq_comm]

/-- C7 counterexample: from GameOver with score (11, 5), the quit
command (Escape, not the match-restart Space) also resets the score to
(0, 0) and leaves to the title screen. -/
theorem score_reset_by_quit_cex :
    (handle_game_over_input false true
        ⟨⟨11, 5⟩, [], PlayerSide.Left, GamePhase.GameOver, ⟨1, 1⟩,
          ScreenState.Gameplay⟩).score = Score.mk 0 0
    ∧ (handle_game_over_input false true
        ⟨⟨11, 5⟩, [], PlayerSide.Left, GamePhase.GameOver, ⟨1, 1⟩,
          ScreenState.Gameplay⟩).screen = ScreenState.Title
    ∧ Score.mk 11 5 ≠ Score.mk 0 0 := by
  refine ⟨?_, ?_, by decide⟩ <;> rfl

/-- C7 amended: each goal resolution increments exactly one count by 1
(so both counts are monotonically non-decreasing under it), the goal
pause system never changes the score, and the score is reset to (0, 0)
exactly by the explicit game-over inputs — restart (Space) or
quit-to-title (Escape) — and otherwise left unchanged by the game-over
input handler. -/
theorem score_monotone_and_reset (st : GameState) (ev : GoalScoredEv)
    (d : ℚ) (space escape : Bool) :
    (st.score.left ≤ (handle_goal_and_check_win ev st).score.left
      ∧ st.score.right ≤ (handle_goal_and_check_win ev st).score.right
      ∧ (handle_goal_and_check_win ev st).score.left
          + (handle_goal_and_check_win ev st).score.right
          = st.score.left + st.score.right + 1)
    ∧ (handle_goal_pause d st).score = st.score
    ∧ (handle_game_over_input space escape st).score =
        (if st.phase = GamePhase.GameOver ∧ (space ∨ escape) then Score.mk 0 0
         else st.score) := by
  refine ⟨?_, ?_, ?_⟩
  · unfold handle_goal_and_check_win
    cases ev with
    | mk side => cases side <;> dsimp only <;> split <;> simp <;> omega
  · unfold handle_goal_pause
    split
    · dsimp only
      split <;> rfl
    · rfl
  · unfold handle_game_over_input enter_gameplay
    cases space <;> cases escape <;> split <;> simp_all

/-- C8: from GameOver, the restart command (Space) resets the score to
(0, 0), re-enters the Gameplay screen, and the GamePhase sub-state
re-initializes to its default WaitingToServe. -/
theorem restart_resets_score_and_phase (st : GameState) (escape : Bool)
    (h : st.phase = GamePhase.GameOver) :
    (handle_game_over_input true escape st).score = Score.mk 0 0
    ∧ (handle_game_over_input true escape st).phase = GamePhase.WaitingToServe
    ∧ (handle_game_over_input true escape st).screen = ScreenState.Gameplay := by
  unfold handle_game_over_input enter_gameplay
  simp [h]

/-- C8 witness: restart from a finished 11-5 game. -/
theorem restart_resets_score_and_phase_witness :
    (handle_game_over_input true false
        ⟨⟨11, 5⟩, [], PlayerSide.Right, GamePhase.GameOver, ⟨1, 1⟩,
          ScreenState.Gameplay⟩).score = Score.mk 0 0
    ∧ (handle_game_over_input true false
        ⟨⟨11, 5⟩, [], PlayerSide.Right, GamePhase.GameOver, ⟨1, 1⟩,
          ScreenState.Gameplay⟩).phase = GamePhase.WaitingToServe
    ∧ (handle_game_over_input true false
        ⟨⟨11, 5⟩, [], PlayerSide.Right, GamePhase.GameOver, ⟨1, 1⟩,
          ScreenState.Gameplay⟩).screen = ScreenState.Gameplay :=
  restart_resets_score_and_phase _ false rfl

/-- C10: restarting from GameOver leaves the serve direction unchanged —
the handler touches only the score and the screen/phase, and nothing
re-initializes the `ServeDirection` resource on re-entry — so the side
that serves first in the new match is whichever side was last set to
serve next. -/
theorem restart_keeps_serve_side (st : GameState) (escape : Bool)
    (h : st.phase = GamePhase.GameOver) :
    (handle_game_over_input true escape st).serve_side = st.serve_side := by
  unfold handle_game_over_input enter_gameplay
  simp [h]

/-- C10 witness: after a restart from a game the Right side was about to
serve, Right still serves first. -/
theorem restart_keeps_serve_side_witness :
    (handle_game_over_input true false
        ⟨⟨11, 5⟩, [], PlayerSide.Right, GamePhase.GameOver, ⟨1, 1⟩,
          ScreenState.Gameplay⟩).serve_side =
      GameState.serve_side
        ⟨⟨11, 5⟩, [], PlayerSide.Right, GamePhase.GameOver, ⟨1, 1⟩,
          ScreenState.Gameplay⟩ :=
  restart_keeps_serve_side _ false rfl

/-- Running the `handle_goal_pause` system once per tick over a list of
per-tick time deltas. -/
def run_goal_pause (ds : List ℚ) (st : GameState) : GameState :=
  ds.foldl (fun s d => handle_goal_pause d s) st

lemma run_goal_pause_of_not_goal_scored (ds : List ℚ) (st : GameState)
    (h : st.phase ≠ GamePhase.GoalScored) :
    run_goal_pause ds st = st := by
  induction ds with
  | nil => rfl
  | cons d rest ih =>
    show run_goal_pause rest (handle_goal_pause d st) = st
    rw [handle_goal_pause, if_neg h]
    exact ih

lemma handle_goal_pause_goal_scored (d e : ℚ) (st : GameState)
    (hphase : st.phase = GamePhase.GoalScored)
    (htimer : st.goal_timer = ⟨e, 1⟩) :
    handle_goal_pause d st =
      if 1 ≤ e + d then
        { st with goal_timer := ⟨1, 1⟩, phase := GamePhase.WaitingToServe }
      else
        { st with goal_timer := ⟨e + d, 1⟩ } := by
  unfold handle_goal_pause GTimer.tick GTimer.finished
  rw [if_pos hphase, htimer]
  dsimp only
  by_cases hfin : 1 ≤ e + d
  · rw [min_eq_right hfin]
    simp [hfin]
  · rw [min_eq_left (le_of_lt (not_le.mp hfin))]
    simp [hfin]

lemma run_goal_pause_phase (ds : List ℚ) (e : ℚ) (st : GameState)
    (hphase : st.phase = GamePhase.GoalScored)
    (htimer : st.goal_timer = ⟨e, 1⟩)
    (he : 0 ≤ e) (hlt : e < 1)
    (hds : ∀ d ∈ ds, 0 ≤ d) :
    (run_goal_pause ds st).phase =
      if 1 ≤ e + ds.sum then GamePhase.WaitingToServe
      else GamePhase.GoalScored := by
  induction ds generalizing e st with
  | nil =>
    show st.phase = _
    simp [hphase, not_le.mpr hlt]
  | cons d rest ih =>
    have hd : 0 ≤ d := hds d (by simp)
    have hrest : ∀ x ∈ rest, 0 ≤ x := fun x hx => hds x (by simp [hx])
    have hsum : 0 ≤ rest.sum := List.sum_nonneg hrest
    show (run_goal_pause rest (handle_goal_pause d st)).phase = _
    rw [handle_goal_pause_goal_scored d e st hphase htimer]
    by_cases hfin : 1 ≤ e + d
    · rw [if_pos hfin,
        run_goal_pause_of_not_goal_scored rest _ (by intro hc; exact absurd hc (by simp))]
      simp only [List.sum_cons]
      rw [if_pos (show (1 : ℚ) ≤ e + (d + rest.sum) by linarith)]
    · rw [if_neg hfin]
      rw [ih (e + d) _ (by simp [hphase]) rfl (by linarith [not_le.mp hfin, he, hd])
        (not_le.mp hfin) hrest]
      simp only [List.sum_cons]
      by_cases hend : 1 ≤ e + (d + rest.sum)
      · rw [if_pos (by linarith), if_pos hend]
      · rw [if_neg (by intro hc; exact hend (by linarith)), if_neg hend]

/-- C9: the goal pause timer created after a goal has duration exactly
`GOAL_PAUSE_DURATION = 1` second; for any sequence of nonnegative tick
deltas the phase stays GoalScored while the accumulated time is below
the duration, and is WaitingToServe exactly once it reaches it. -/
theorem goal_pause_timer_spec (ds : List ℚ) (st : GameState)
    (hphase : st.phase = GamePhase.GoalScored)
    (htimer : st.goal_timer = GTimer.from_seconds GOAL_PAUSE_DURATION)
    (hds : ∀ d ∈ ds, 0 ≤ d) :
    GOAL_PAUSE_DURATION = 1
    ∧ (run_goal_pause ds st).phase =
        (if 1 ≤ ds.sum then GamePhase.WaitingToServe
         else GamePhase.GoalScored) := by
  refine ⟨rfl, ?_⟩
  have h := run_goal_pause_phase ds 0 st hphase
    (by simpa [GTimer.from_seconds, GOAL_PAUSE_DURATION] using htimer)
    le_rfl (by norm_num) hds
  simpa using h

/-- C9 witness: ticks of 1/2 then 3/4 second cross the 1-second pause. -/
theorem goal_pause_timer_spec_witness :
    GOAL_PAUSE_DURATION = 1
    ∧ (run_goal_pause [1/2, 3/4]
        ⟨⟨2, 3⟩, [spawn_ball], PlayerSide.Left, GamePhase.GoalScored,
          GTimer.from_seconds GOAL_PAUSE_DURATION,
          ScreenState.Gameplay⟩).phase =
      (if 1 ≤ ([1/2, 3/4] : List ℚ).sum then GamePhase.WaitingToServe
       else GamePhase.GoalScored) :=
  goal_pause_timer_spec _ _ rfl rfl
    (by intro d hd; fin_cases hd <;> norm_num)

/-- `BALL_SPEED` from `src/src/game/ball.rs` line 16, over `ℝ`
(the source's `f32` arithmetic is idealized by real arithmetic). -/
noncomputable def BALL_SPEED : ℝ := 300

/-- `MIN_SERVE_ANGLE` from `src/src/game/ball.rs` line 23; `serve_ball`
draws its angle from the inclusive range
`MIN_SERVE_ANGLE..=MAX_SERVE_ANGLE`. -/
noncomputable def MIN_SERVE_ANGLE : ℝ := 15

/-- `MAX_SERVE_ANGLE` from `src/src/game/ball.rs` line 24. -/
noncomputable def MAX_SERVE_ANGLE : ℝ := 45

/-- `f32::to_radians`: degrees times pi over 180. -/
noncomputable def to_radians (deg : ℝ) : ℝ := deg * (Real.pi / 180)

/-- The horizontal serve direction chosen in `serve_ball`
(`src/src/game/ball.rs` lines 127-130): Left serves rightward (+1),
Right serves leftward (-1). -/
noncomputable def serve_direction_x (side : PlayerSide) : ℝ :=
  match side with
  | PlayerSide.Left => 1
  | PlayerSide.Right => -1

/-- The velocity computed by `serve_ball` (`src/src/game/ball.rs` lines
113-141) given the drawn angle in degrees and the drawn vertical sign:
the sign is multiplied into the angle before taking cosine and sine. -/
noncomputable def serve_velocity (side : PlayerSide)
    (angle_degrees angle_sign : ℝ) : ℝ × ℝ :=
  let angle_radians := to_radians angle_degrees * angle_sign
  (Real.cos angle_radians * BALL_SPEED * serve_direction_x side,
   Real.sin angle_radians * BALL_SPEED)

/-- C5: the serve angle range is [15, 45] degrees; for either vertical
sign the computed velocity equals
(speed·cos(angle)·horizontal_sign, speed·sin(angle)·vertical_sign) with
horizontal sign +1 for Left and -1 for Right; and in the concrete case
side = Left, angle = 30°, sign = +1 the velocity is
(speed·cos(π/6), speed·sin(π/6)) with both components positive. -/
theorem serve_velocity_spec (side : PlayerSide) (angle sign : ℝ)
    (h : sign = 1 ∨ sign = -1) :
    MIN_SERVE_ANGLE = 15 ∧ MAX_SERVE_ANGLE = 45
    ∧ serve_velocity side angle sign =
        (BALL_SPEED * Real.cos (to_radians angle) * serve_direction_x side,
         BALL_SPEED * Real.sin (to_radians angle) * sign)
    ∧ serve_direction_x PlayerSide.Left = 1
    ∧ serve_direction_x PlayerSide.Right = -1
    ∧ serve_velocity PlayerSide.Left 30 1 =
        (BALL_SPEED * Real.cos (Real.pi / 6),
         BALL_SPEED * Real.sin (Real.pi / 6))
    ∧ 0 < BALL_SPEED * Real.cos (Real.pi / 6)
    ∧ 0 < BALL_SPEED * Real.sin (Real.pi / 6) := by
  have h30 : to_radians 30 * 1 = Real.pi / 6 := by
    unfold to_radians; ring
  refine ⟨rfl, rfl, ?_, rfl, rfl, ?_, ?_, ?_⟩
  · rcases h with rfl | rfl <;>
      simp only [serve_velocity, Prod.mk.injEq, mul_one, mul_neg_one,
        Real.cos_neg, Real.sin_neg] <;>
      constructor <;> ring
  · simp only [serve_velocity, h30, Prod.mk.injEq]
    refine ⟨?_, ?_⟩
    · show Real.cos (Real.pi / 6) * BALL_SPEED * (1 : ℝ) =
        BALL_SPEED * Real.cos (Real.pi / 6)
      ring
    · show Real.sin (Real.pi / 6) * BALL_SPEED =
        BALL_SPEED * Real.sin (Real.pi / 6)
      ring
  · rw [Real.cos_pi_div_six, BALL_SPEED]
    have h3 : (0 : ℝ) < Real.sqrt 3 := Real.sqrt_pos.mpr (by norm_num)
    positivity
  · rw [Real.sin_pi_div_six, BALL_SPEED]
    norm_num

/-- C5 witness: the formula instantiated at side = Left, angle = 30,
vertical sign = +1. -/
theorem serve_velocity_spec_witness :
    MIN_SERVE_ANGLE = 15 ∧ MAX_SERVE_ANGLE = 45
    ∧ serve_velocity PlayerSide.Left 30 1 =
        (BALL_SPEED * Real.cos (to_radians 30) *
            serve_direction_x PlayerSide.Left,
         BALL_SPEED * Real.sin (to_radians 30) * 1)
    ∧ serve_direction_x PlayerSide.Left = 1
    ∧ serve_direction_x PlayerSide.Right = -1
    ∧ serve_velocity PlayerSide.Left 30 1 =
        (BALL_SPEED * Real.cos (Real.pi / 6),
         BALL_SPEED * Real.sin (Real.pi / 6))
    ∧ 0 < BALL_SPEED * Real.cos (Real.pi / 6)
    ∧ 0 < BALL_SPEED * Real.sin (Real.pi / 6) :=
  serve_velocity_spec PlayerSide.Left 30 1 (Or.inl rfl)

end Paddlegeddon
